import Mathlib

/-!
Verification of the `knives.py` process-orchestration pipeline.

The program is a thin wrapper that spawns external bioinformatics tools
(`pairs`, `seqqs`, `scythe`, `sickle`, plus `cat`) in a fixed order and wires
their standard streams together.  We embed `main` (src/knives.py, lines
149-283) as a pure function from an abstract OS environment and the parsed
command-line options to a trace of OS-level events: file opens, fifo
creation, temp-file creation, process spawns (with argument vector and
stream wiring), parent-side stream closes, waiting on a process, and
unlinking.  Logging calls (`CMD_LOG.info` and the log-file handlers of
`setup_logs`) are elided as pure diagnostics; the only control-flow-relevant
part of `setup_logs` — the existence check on the log directory that can
raise `RuntimeError` — is kept.  Exceptions (`RuntimeError`) are modelled
with `Except`.
-/

/-- The parsed docopt options of knives.py.  Field names follow the option
letters (`-K` is `K`, `-i` is `i`, and so on).  Options that docopt may
leave absent (`-K -C -E -P -s`) are `Option String`; flags (`-S -n`) are
`Bool`; the rest are `String`. -/
structure Opts where
  K : Option String
  C : Option String
  E : Option String
  P : Option String
  q : String
  t : String
  l : String
  s : Option String
  S : Bool
  n : Bool
  L : String
  a : String
  i : String
  I : String
  o : String
  O : String
  u : String
  p : String
  r : String

/-- The abstract OS environment `main` consults: `find_executable` (PATH
search), `os.path.isfile`, `os.access(_, X_OK)`, `os.path.exists`,
`tempfile.gettempdir()` and the `NOW` timestamp string. -/
structure Env where
  findExecutable : String → Option String
  isFile : String → Bool
  accessXOk : String → Bool
  pathExists : String → Bool
  tempDir : String
  now : String

/-- Where a spawned process's stdin comes from: inherited from the parent
(Popen `stdin=None`) or the stdout pipe of the process spawned at
position `k` in the run (Popen `stdin=<that process>.stdout`). -/
inductive StdinSpec where
  | inherit : StdinSpec
  | fromStdoutOf (k : Nat) : StdinSpec
deriving DecidableEq, Repr

/-- Where a spawned process's stdout goes: a fresh anonymous pipe
(Popen `stdout=sp.PIPE`) or an already-open file handle on `path`
(Popen `stdout=<file handle>`). -/
inductive StdoutSpec where
  | pipe : StdoutSpec
  | toFh (path : String) : StdoutSpec
deriving DecidableEq, Repr

/-- Where a spawned process's stderr goes: inherited, or redirected into
the temporary file created with identifier `id`
(Popen `stderr=tempfile.TemporaryFile()`). -/
inductive StderrSpec where
  | inherit : StderrSpec
  | toTempFile (id : Nat) : StderrSpec
deriving DecidableEq, Repr

/-- One `sp.Popen` call: the source variable name of the process handle,
the argument vector, and the three stream redirections. -/
structure SpawnEvent where
  tag : String
  argv : List String
  stdin : StdinSpec
  stdout : StdoutSpec
  stderr : StderrSpec
deriving DecidableEq, Repr

/-- The OS-visible events `main` performs, in program order. -/
inductive Event where
  | openGzip (path : String) : Event
  | mkfifo (path : String) : Event
  | mkTempFile (id : Nat) : Event
  | spawn (s : SpawnEvent) : Event
  | closeStdoutOf (k : Nat) : Event
  | communicate (k : Nat) : Event
  | unlink (path : String) : Event
deriving DecidableEq, Repr

/-- Paths of the four located executables (global vars SICKLE, SCYTHE,
SEQQS, PAIRS). -/
structure Progs where
  sickle : String
  scythe : String
  seqqs : String
  pairs : String
deriving DecidableEq, Repr

/-- Python truthiness of a docopt option value: `None` and `""` are falsy. -/
def optTruthy : Option String → Bool
  | none => false
  | some s => !(s == "")

/-- `opts["-X"] if opts["-X"] else find_executable(name)`
(src/knives.py lines 117-120 and the three analogous blocks). -/
def pickProg (env : Env) (optVal : Option String) (name : String) : Option String :=
  if optTruthy optVal then optVal else env.findExecutable name

/-- The validity test applied to each located program
(src/knives.py lines 121-122): the value is truthy, `os.path.isfile`
holds and `os.access(_, X_OK)` holds. -/
def progOk (env : Env) : Option String → Bool
  | none => false
  | some s => !(s == "") && env.isFile s && env.accessXOk s

/-- `find_progs` (src/knives.py lines 110-147): locate sickle, scythe,
seqqs and pairs from the corresponding option or the PATH, raising
`RuntimeError` when one is missing, not a file or not executable.  The
error message of the pairs branch is "Can't find sickle" exactly as in the
source (line 147). -/
def find_progs (env : Env) (opts : Opts) : Except String Progs :=
  if !(progOk env (pickProg env opts.K "sickle")) then .error "Can't find sickle" else
  if !(progOk env (pickProg env opts.C "scythe")) then .error "Can't find scythe" else
  if !(progOk env (pickProg env opts.E "seqqs")) then .error "Can't find seqqs" else
  if !(progOk env (pickProg env opts.P "pairs")) then .error "Can't find sickle" else
  .ok ⟨(pickProg env opts.K "sickle").getD "",
       (pickProg env opts.C "scythe").getD "",
       (pickProg env opts.E "seqqs").getD "",
       (pickProg env opts.P "pairs").getD ""⟩

/-- The control-flow-relevant part of `setup_logs` (src/knives.py lines
74-75): raise `RuntimeError` when the log directory does not exist.  The
log-handler construction it performs afterwards is pure diagnostics and is
elided. -/
def setup_logs (env : Env) (opts : Opts) : Except String Unit :=
  if !(env.pathExists opts.L) then .error "Log directory not found." else .ok ()

/-- The temporary fifo path `path.join(tempfile.gettempdir(), "unpaired_" + NOW)`
(src/knives.py line 161). -/
def unpairedTmpfn (env : Env) : String :=
  env.tempDir ++ "/unpaired_" ++ env.now

/-- `interleave_cli` (src/knives.py lines 164-170). -/
def interleave_cli (opts : Opts) (pg : Progs) : List String :=
  [pg.pairs, "join", "-t", opts.i, opts.I]

/-- A `seqqs` argument vector (src/knives.py lines 176-185, 207-216,
253-262); the three instances differ only in the report tag of the `-p`
argument. -/
def seqqs_cli (env : Env) (opts : Opts) (pg : Progs) (tag : String) : List String :=
  [pg.seqqs, "-i", "-e", "-q", opts.q, "-p", opts.p ++ tag ++ env.now, "-"]

/-- `scythe_cli` (src/knives.py lines 192-200). -/
def scythe_cli (opts : Opts) (pg : Progs) : List String :=
  [pg.scythe, "-p", opts.r, "-a", opts.a, "-M", "0", "-"]

/-- `sickle_cli` (src/knives.py lines 223-237), with `-n` appended when
the `-n` flag is set. -/
def sickle_cli (env : Env) (opts : Opts) (pg : Progs) : List String :=
  let base := [pg.sickle, "pe", "-t", opts.q, "-c", "/dev/stdin",
    "-m", "/dev/stdout", "-s", unpairedTmpfn env, "-q", opts.q, "-l", opts.l]
  if opts.n then base ++ ["-n"] else base

/-- `cat_cli` (src/knives.py lines 244-247). -/
def cat_cli (env : Env) : List String :=
  ["cat", unpairedTmpfn env]

/-- `deinterleave_cli` (src/knives.py lines 269-276). -/
def deinterleave_cli (opts : Opts) (pg : Progs) : List String :=
  [pg.pairs, "split", "-1", opts.o, "-2", opts.O, "-u", opts.u, "-"]

/-- The event trace of the body of `main` after `setup_logs` and
`find_progs` have succeeded (src/knives.py lines 159-283), in source
order.  Processes are numbered by spawn position: 0 interleave_proc,
1 seqqs_il_proc, 2 scythe_proc, 3 seqqs_na_proc, 4 sickle_proc,
5 cat_proc, 6 seqqs_qt_proc, 7 deinterleave_proc.  Note the two
parent-side closes at source lines 242 and 281 really re-close
`seqqs_il_proc.stdout` and `sickle_proc.stdout` — the traces record the
code as written. -/
def pipelineTrace (env : Env) (opts : Opts) (pg : Progs) : List Event :=
  [ .openGzip opts.u,
    .mkfifo (unpairedTmpfn env),
    .mkTempFile 0,
    .spawn ⟨"interleave_proc", interleave_cli opts pg,
      .inherit, .pipe, .toTempFile 0⟩,
    .mkTempFile 1,
    .spawn ⟨"seqqs_il_proc", seqqs_cli env opts pg "_initial_",
      .fromStdoutOf 0, .pipe, .toTempFile 1⟩,
    .closeStdoutOf 0,
    .mkTempFile 2,
    .spawn ⟨"scythe_proc", scythe_cli opts pg,
      .fromStdoutOf 1, .pipe, .toTempFile 2⟩,
    .closeStdoutOf 1,
    .mkTempFile 3,
    .spawn ⟨"seqqs_na_proc", seqqs_cli env opts pg "_noadapt_",
      .fromStdoutOf 2, .pipe, .toTempFile 3⟩,
    .closeStdoutOf 2,
    .mkTempFile 4,
    .spawn ⟨"sickle_proc", sickle_cli env opts pg,
      .fromStdoutOf 3, .pipe, .toTempFile 4⟩,
    .closeStdoutOf 1,
    .mkTempFile 5,
    .spawn ⟨"cat_proc", cat_cli env,
      .inherit, .toFh opts.u, .toTempFile 5⟩,
    .mkTempFile 6,
    .spawn ⟨"seqqs_qt_proc", seqqs_cli env opts pg "_qualtrim_",
      .fromStdoutOf 4, .pipe, .toTempFile 6⟩,
    .closeStdoutOf 4,
    .mkTempFile 7,
    .spawn ⟨"deinterleave_proc", deinterleave_cli opts pg,
      .fromStdoutOf 6, .pipe, .toTempFile 7⟩,
    .closeStdoutOf 4,
    .communicate 7,
    .unlink (unpairedTmpfn env) ]

/-- `main` (src/knives.py lines 149-283): run `setup_logs`, then
`find_progs`, then the pipeline; a raised `RuntimeError` propagates as
`Except.error`. -/
def mainRun (env : Env) (opts : Opts) : Except String (List Event) :=
  match setup_logs env opts with
  | .error e => .error e
  | .ok _ =>
    match find_progs env opts with
    | .error e => .error e
    | .ok pg => .ok (pipelineTrace env opts pg)

/-- The sub-list of spawn records of a trace, in spawn order. -/
def spawnsOf (tr : List Event) : List SpawnEvent :=
  tr.filterMap fun e => match e with | .spawn s => some s | _ => none

/-- Whether an event is a process spawn. -/
def isSpawn : Event → Bool
  | .spawn _ => true
  | _ => false

/-- Whether an event is an unlink. -/
def isUnlink : Event → Bool
  | .unlink _ => true
  | _ => false

/-- Whether an event is a `communicate` (wait on a process). -/
def isCommunicate : Event → Bool
  | .communicate _ => true
  | _ => false

/-- Whether an event is a temp-file creation. -/
def isMkTempFile : Event → Bool
  | .mkTempFile _ => true
  | _ => false

/-- Starting from position `k`, every later spawn in the list reads the
stdout of the spawn immediately before it. -/
def chainedFrom : Nat → List SpawnEvent → Bool
  | _, [] => true
  | _, [_] => true
  | k, _ :: b :: rest =>
      (b.stdin == StdinSpec.fromStdoutOf k) && chainedFrom (k + 1) (b :: rest)

/-- Every successive spawn reads the stdout of the spawn immediately
before it (position 0 is the head of the list). -/
def chainedSpawns (l : List SpawnEvent) : Bool :=
  chainedFrom 0 l

/-- The condition under which `find_progs` raises: at least one of the
four programs is absent, an empty value, not a regular file, or not
executable. -/
def progsMissing (env : Env) (opts : Opts) : Bool :=
  !(progOk env (pickProg env opts.K "sickle") &&
    progOk env (pickProg env opts.C "scythe") &&
    progOk env (pickProg env opts.E "seqqs") &&
    progOk env (pickProg env opts.P "pairs"))

/-- A concrete environment for witnesses: every path exists, is a regular
file and is executable; the PATH search finds nothing (the options supply
the executables). -/
def env0 : Env :=
  { findExecutable := fun _ => none
    isFile := fun _ => true
    accessXOk := fun _ => true
    pathExists := fun _ => true
    tempDir := "/tmp"
    now := "2026-10-12_00:00:00" }

/-- A concrete option set for witnesses, supplying all four executables
explicitly. -/
def opts0 : Opts :=
  { K := some "/usr/bin/sickle"
    C := some "/usr/bin/scythe"
    E := some "/usr/bin/seqqs"
    P := some "/usr/bin/pairs"
    q := "20"
    t := "sanger"
    l := "40"
    s := none
    S := false
    n := false
    L := "."
    a := "adapters.fa"
    i := "r1.fq"
    I := "r2.fq"
    o := "out1.fq"
    O := "out2.fq"
    u := "unpaired.fq.gz"
    p := "run1"
    r := "0.3" }

/-- The programs `find_progs` locates under `env0`/`opts0`. -/
def pg0 : Progs :=
  ⟨"/usr/bin/sickle", "/usr/bin/scythe", "/usr/bin/seqqs", "/usr/bin/pairs"⟩

/-- The event trace of the `env0`/`opts0` run. -/
def tr0 : List Event := pipelineTrace env0 opts0 pg0

/-- Destructuring a successful `mainRun`: the trace is the pipeline trace
for the programs `find_progs` returned. -/
theorem mainRun_ok {env : Env} {opts : Opts} {tr : List Event}
    (h : mainRun env opts = .ok tr) :
    ∃ pg, find_progs env opts = .ok pg ∧ tr = pipelineTrace env opts pg := by
  unfold mainRun at h
  split at h
  · exact absurd h (by simp)
  · split at h
    · exact absurd h (by simp)
    · rename_i pg heq
      exact ⟨pg, heq, by injection h with h2; exact h2.symm⟩

/-- C8: the `-s SKIP` option has no effect on a run: `mainRun` gives the
same result when only the `s` field differs (the pipeline never consults
the documented step-skipping option). -/
theorem c8_skip_has_no_effect (env : Env) (opts : Opts) (v : Option String) :
    mainRun env { opts with s := v } = mainRun env opts := by
  cases opts
  rfl

/-- C1 counterexample: in a concrete successful run, it is false that the
standard input of each successively spawned stage is connected to the
standard output of the stage spawned immediately before it: the sixth
spawn (`cat_proc`) inherits its stdin, and the seventh spawn
(`seqqs_qt_proc`) reads the stdout of the fifth (`sickle_proc`), not the
sixth. -/
theorem c1_counterexample :
    mainRun env0 opts0 = Except.ok tr0 ∧
    chainedSpawns (spawnsOf tr0) = false := by
  exact ⟨rfl, by decide⟩

/-- C1 amended: every successful run spawns, in order, interleaving
(pairs join), initial QC (seqqs), adaptor trimming (scythe), post-adaptor
QC (seqqs), quality trimming (sickle), the unpaired-reads copier (cat),
post-trim QC (seqqs) and de-interleaving (pairs split); each stage except
cat reads the stdout of the previous chained stage (cat inherits its
stdin, and the QC stage after sickle reads sickle's stdout). -/
theorem c1_pipeline_order (env : Env) (opts : Opts) (tr : List Event)
    (h : mainRun env opts = .ok tr) :
    (spawnsOf tr).map SpawnEvent.tag =
      ["interleave_proc", "seqqs_il_proc", "scythe_proc", "seqqs_na_proc",
       "sickle_proc", "cat_proc", "seqqs_qt_proc", "deinterleave_proc"] ∧
    (spawnsOf tr).map SpawnEvent.stdin =
      [.inherit, .fromStdoutOf 0, .fromStdoutOf 1, .fromStdoutOf 2,
       .fromStdoutOf 3, .inherit, .fromStdoutOf 4, .fromStdoutOf 6] := by
  obtain ⟨pg, _, rfl⟩ := mainRun_ok h
  exact ⟨rfl, rfl⟩

/-- C1 amended, witness: the order and wiring hold on the concrete
`env0`/`opts0` run. -/
theorem c1_pipeline_order_witness :
    (spawnsOf tr0).map SpawnEvent.tag =
      ["interleave_proc", "seqqs_il_proc", "scythe_proc", "seqqs_na_proc",
       "sickle_proc", "cat_proc", "seqqs_qt_proc", "deinterleave_proc"] ∧
    (spawnsOf tr0).map SpawnEvent.stdin =
      [.inherit, .fromStdoutOf 0, .fromStdoutOf 1, .fromStdoutOf 2,
       .fromStdoutOf 3, .inherit, .fromStdoutOf 4, .fromStdoutOf 6] :=
  c1_pipeline_order env0 opts0 tr0 rfl

/-- C4 counterexample: a concrete successful run spawns eight external
processes, not five. -/
theorem c4_counterexample :
    mainRun env0 opts0 = Except.ok tr0 ∧ (spawnsOf tr0).length ≠ 5 := by
  exact ⟨rfl, by decide⟩

/-- C4 amended: every successful run spawns a static sequence of exactly
eight fixed external process stages. -/
theorem c4_eight_spawns (env : Env) (opts : Opts) (tr : List Event)
    (h : mainRun env opts = .ok tr) :
    (spawnsOf tr).length = 8 := by
  obtain ⟨pg, _, rfl⟩ := mainRun_ok h
  rfl

/-- C4 amended, witness: the concrete `env0`/`opts0` run spawns eight
processes. -/
theorem c4_eight_spawns_witness : (spawnsOf tr0).length = 8 :=
  c4_eight_spawns env0 opts0 tr0 rfl

/-- The `-s` and `-s`-adjacent entries of the sickle argument vector do
not depend on the trailing conditional `-n` flag. -/
theorem sickle_cli_s_arg (env : Env) (opts : Opts) (pg : Progs) :
    (sickle_cli env opts pg)[2]? = some "-t" ∧
    (sickle_cli env opts pg)[3]? = some opts.q ∧
    (sickle_cli env opts pg)[8]? = some "-s" ∧
    (sickle_cli env opts pg)[9]? = some (unpairedTmpfn env) ∧
    (sickle_cli env opts pg)[10]? = some "-q" ∧
    (sickle_cli env opts pg)[11]? = some opts.q := by
  unfold sickle_cli
  cases opts.n <;> exact ⟨rfl, rfl, rfl, rfl, rfl, rfl⟩

/-- C3: in every successful run the named pipe is created (trace position
1) before any process is spawned (all spawns are at position 2 or later);
the sickle spawn (spawn 4) passes `-s` followed by the fifo path; the cat
spawn (spawn 5) runs `cat <fifo>` with its stdout attached to the file
handle opened on the `-u` path; and that `-u` path was opened via
`gzip.open` in the parent. -/
theorem c3_unpaired_side_channel (env : Env) (opts : Opts) (tr : List Event)
    (h : mainRun env opts = .ok tr) :
    (tr[1]? = some (.mkfifo (unpairedTmpfn env)) ∧
      ∀ j s, tr[j]? = some (.spawn s) → 2 ≤ j) ∧
    (∃ s, (spawnsOf tr)[4]? = some s ∧ s.tag = "sickle_proc" ∧
      s.argv[8]? = some "-s" ∧ s.argv[9]? = some (unpairedTmpfn env)) ∧
    (∃ c, (spawnsOf tr)[5]? = some c ∧ c.tag = "cat_proc" ∧
      c.argv = ["cat", unpairedTmpfn env] ∧ c.stdout = .toFh opts.u) ∧
    Event.openGzip opts.u ∈ tr := by
  obtain ⟨pg, _, rfl⟩ := mainRun_ok h
  refine ⟨⟨rfl, ?_⟩, ?_, ?_, ?_⟩
  · intro j s hj
    match j with
    | 0 => simp [pipelineTrace] at hj
    | 1 => simp [pipelineTrace] at hj
    | n + 2 => omega
  · exact ⟨_, rfl, rfl, (sickle_cli_s_arg env opts pg).2.2.1,
      (sickle_cli_s_arg env opts pg).2.2.2.1⟩
  · exact ⟨_, rfl, rfl, rfl, rfl⟩
  · simp [pipelineTrace]

/-- C3, witness: the side-channel wiring holds on the concrete
`env0`/`opts0` run. -/
theorem c3_unpaired_side_channel_witness :
    (tr0[1]? = some (.mkfifo (unpairedTmpfn env0)) ∧
      ∀ j s, tr0[j]? = some (.spawn s) → 2 ≤ j) ∧
    (∃ s, (spawnsOf tr0)[4]? = some s ∧ s.tag = "sickle_proc" ∧
      s.argv[8]? = some "-s" ∧ s.argv[9]? = some (unpairedTmpfn env0)) ∧
    (∃ c, (spawnsOf tr0)[5]? = some c ∧ c.tag = "cat_proc" ∧
      c.argv = ["cat", unpairedTmpfn env0] ∧ c.stdout = .toFh opts0.u) ∧
    Event.openGzip opts0.u ∈ tr0 :=
  c3_unpaired_side_channel env0 opts0 tr0 rfl

/-- C5: every successful run ends with waiting on the de-interleaving
process (spawn 7, `deinterleave_proc`, the `communicate` at trace
position 24) immediately followed by unlinking the temporary fifo (trace
position 25, the last event); the trace contains exactly one unlink and
exactly one wait, so the unlink happens only after the final process
completes. -/
theorem c5_unlink_after_completion (env : Env) (opts : Opts) (tr : List Event)
    (h : mainRun env opts = .ok tr) :
    tr[24]? = some (.communicate 7) ∧
    tr[25]? = some (.unlink (unpairedTmpfn env)) ∧
    tr.length = 26 ∧
    tr.filter isUnlink = [.unlink (unpairedTmpfn env)] ∧
    tr.filter isCommunicate = [.communicate 7] ∧
    (∃ d, (spawnsOf tr)[7]? = some d ∧ d.tag = "deinterleave_proc") := by
  obtain ⟨pg, _, rfl⟩ := mainRun_ok h
  exact ⟨rfl, rfl, rfl, rfl, rfl, _, rfl, rfl⟩

/-- C5, witness: the cleanup ordering holds on the concrete
`env0`/`opts0` run. -/
theorem c5_unlink_after_completion_witness :
    tr0[24]? = some (.communicate 7) ∧
    tr0[25]? = some (.unlink (unpairedTmpfn env0)) ∧
    tr0.length = 26 ∧
    tr0.filter isUnlink = [.unlink (unpairedTmpfn env0)] ∧
    tr0.filter isCommunicate = [.communicate 7] ∧
    (∃ d, (spawnsOf tr0)[7]? = some d ∧ d.tag = "deinterleave_proc") :=
  c5_unlink_after_completion env0 opts0 tr0 rfl

/-- When one of the four programs is missing, empty, not a regular file
or not executable, `find_progs` raises. -/
theorem find_progs_error_of_missing (env : Env) (opts : Opts)
    (h : progsMissing env opts = true) :
    ∃ msg, find_progs env opts = .error msg := by
  unfold progsMissing at h
  unfold find_progs
  split_ifs with h1 h2 h3 h4
  · exact ⟨_, rfl⟩
  · exact ⟨_, rfl⟩
  · exact ⟨_, rfl⟩
  · exact ⟨_, rfl⟩
  · simp only [Bool.not_eq_true'] at h1 h2 h3 h4
    simp [h1, h2, h3, h4] at h

/-- C6: if any of the four required executables (taken from the
corresponding command-line option when truthy, otherwise from the PATH
search) is missing, not a regular file, or not executable, then `main`
raises a `RuntimeError` and never produces a pipeline trace, so no
pipeline process is spawned. -/
theorem c6_missing_prog_aborts (env : Env) (opts : Opts)
    (h : progsMissing env opts = true) :
    (∃ msg, mainRun env opts = .error msg) ∧
    ∀ tr, mainRun env opts ≠ .ok tr := by
  obtain ⟨msg, hmsg⟩ := find_progs_error_of_missing env opts h
  unfold mainRun
  cases hs : setup_logs env opts with
  | error e => exact ⟨⟨e, rfl⟩, fun tr h' => by simp at h'⟩
  | ok u => rw [hmsg]; exact ⟨⟨msg, rfl⟩, fun tr h' => by simp at h'⟩

/-- C6, witness: with no `-K` option and an empty PATH search, the run
aborts with an error and produces no trace. -/
theorem c6_missing_prog_aborts_witness :
    progsMissing env0 { opts0 with K := none } = true ∧
    ((∃ msg, mainRun env0 { opts0 with K := none } = .error msg) ∧
      ∀ tr, mainRun env0 { opts0 with K := none } ≠ .ok tr) :=
  ⟨by decide, c6_missing_prog_aborts env0 { opts0 with K := none } (by decide)⟩

/-- C7: in every successful run, each of the eight spawned processes has
its stderr redirected into a temporary file, the eight temporary files
are pairwise distinct (identifiers 0 through 7 in creation order), and
each was freshly created by the parent (the trace records the eight
creations). -/
theorem c7_stderr_temp_files (env : Env) (opts : Opts) (tr : List Event)
    (h : mainRun env opts = .ok tr) :
    (spawnsOf tr).map SpawnEvent.stderr =
      [.toTempFile 0, .toTempFile 1, .toTempFile 2, .toTempFile 3,
       .toTempFile 4, .toTempFile 5, .toTempFile 6, .toTempFile 7] ∧
    tr.filter isMkTempFile =
      [.mkTempFile 0, .mkTempFile 1, .mkTempFile 2, .mkTempFile 3,
       .mkTempFile 4, .mkTempFile 5, .mkTempFile 6, .mkTempFile 7] := by
  obtain ⟨pg, _, rfl⟩ := mainRun_ok h
  exact ⟨rfl, rfl⟩

/-- C7, witness: the stderr redirections hold on the concrete
`env0`/`opts0` run. -/
theorem c7_stderr_temp_files_witness :
    (spawnsOf tr0).map SpawnEvent.stderr =
      [.toTempFile 0, .toTempFile 1, .toTempFile 2, .toTempFile 3,
       .toTempFile 4, .toTempFile 5, .toTempFile 6, .toTempFile 7] ∧
    tr0.filter isMkTempFile =
      [.mkTempFile 0, .mkTempFile 1, .mkTempFile 2, .mkTempFile 3,
       .mkTempFile 4, .mkTempFile 5, .mkTempFile 6, .mkTempFile 7] :=
  c7_stderr_temp_files env0 opts0 tr0 rfl

/-- C2 (code bug): the parent never closes its duplicate of
`seqqs_na_proc.stdout` (process 3) nor of `seqqs_qt_proc.stdout`
(process 6); instead the close after spawning sickle (source line 242)
re-closes `seqqs_il_proc.stdout` (process 1) and the close after spawning
the de-interleaver (source line 281) re-closes `sickle_proc.stdout`
(process 4), so those two handles are each closed twice. -/
theorem c2_stream_closure_bug :
    mainRun env0 opts0 = Except.ok tr0 ∧
    Event.closeStdoutOf 3 ∉ tr0 ∧
    Event.closeStdoutOf 6 ∉ tr0 ∧
    tr0.count (Event.closeStdoutOf 1) = 2 ∧
    tr0.count (Event.closeStdoutOf 4) = 2 := by
  refine ⟨rfl, by decide, by decide, by decide, by decide⟩

/-- C9: the `-t TYPE` quality-encoding option is never consulted (a run
with any other `-t` value is identical), while the `-q QUAL` value is
passed both as sickle's `-t` (encoding) and `-q` (minimum quality)
arguments, and as the `-q` (encoding) argument of each of the three seqqs
invocations (spawns 1, 3 and 6). -/
theorem c9_qual_encoding_conflation (env : Env) (opts : Opts) :
    (∀ v, mainRun env { opts with t := v } = mainRun env opts) ∧
    (∀ tr, mainRun env opts = .ok tr →
      (∃ s, (spawnsOf tr)[4]? = some s ∧ s.tag = "sickle_proc" ∧
        s.argv[2]? = some "-t" ∧ s.argv[3]? = some opts.q ∧
        s.argv[10]? = some "-q" ∧ s.argv[11]? = some opts.q) ∧
      (∀ k, k ∈ [1, 3, 6] → ∃ s, (spawnsOf tr)[k]? = some s ∧
        s.argv[3]? = some "-q" ∧ s.argv[4]? = some opts.q)) := by
  constructor
  · intro v
    cases opts
    rfl
  · intro tr h
    obtain ⟨pg, _, rfl⟩ := mainRun_ok h
    constructor
    · obtain ⟨h2, h3, _, _, h10, h11⟩ := sickle_cli_s_arg env opts pg
      exact ⟨_, rfl, rfl, h2, h3, h10, h11⟩
    · intro k hk
      simp only [List.mem_cons, List.not_mem_nil, or_false] at hk
      rcases hk with rfl | rfl | rfl
      · exact ⟨_, rfl, rfl, rfl⟩
      · exact ⟨_, rfl, rfl, rfl⟩
      · exact ⟨_, rfl, rfl, rfl⟩

/-- C9, witness: on the concrete `env0`/`opts0` run, changing `-t` to
`phred` changes nothing, and the `-q` value `"20"` fills sickle's `-t`
and `-q` slots and the `-q` slot of each seqqs invocation. -/
theorem c9_qual_encoding_conflation_witness :
    mainRun env0 { opts0 with t := "phred" } = mainRun env0 opts0 ∧
    ((∃ s, (spawnsOf tr0)[4]? = some s ∧ s.tag = "sickle_proc" ∧
        s.argv[2]? = some "-t" ∧ s.argv[3]? = some opts0.q ∧
        s.argv[10]? = some "-q" ∧ s.argv[11]? = some opts0.q) ∧
      (∀ k, k ∈ [1, 3, 6] → ∃ s, (spawnsOf tr0)[k]? = some s ∧
        s.argv[3]? = some "-q" ∧ s.argv[4]? = some opts0.q)) :=
  ⟨(c9_qual_encoding_conflation env0 opts0).1 "phred",
   (c9_qual_encoding_conflation env0 opts0).2 tr0 rfl⟩

/-- C10: in every successful run the `-u` path is opened as a gzip file
in the parent and attached as the stdout of the cat copier (spawn 5),
and the same path is also passed after `-u` in the de-interleaver's
argument vector (spawn 7), so two concurrent writers receive it. -/
theorem c10_unpaired_two_writers (env : Env) (opts : Opts) (tr : List Event)
    (h : mainRun env opts = .ok tr) :
    Event.openGzip opts.u ∈ tr ∧
    (∃ c, (spawnsOf tr)[5]? = some c ∧ c.tag = "cat_proc" ∧
      c.stdout = .toFh opts.u) ∧
    (∃ d, (spawnsOf tr)[7]? = some d ∧ d.tag = "deinterleave_proc" ∧
      d.argv[6]? = some "-u" ∧ d.argv[7]? = some opts.u) := by
  obtain ⟨pg, _, rfl⟩ := mainRun_ok h
  refine ⟨?_, ⟨_, rfl, rfl, rfl⟩, ⟨_, rfl, rfl, rfl, rfl⟩⟩
  simp [pipelineTrace]

/-- C10, witness: the double hand-off of the `-u` path holds on the
concrete `env0`/`opts0` run. -/
theorem c10_unpaired_two_writers_witness :
    Event.openGzip opts0.u ∈ tr0 ∧
    (∃ c, (spawnsOf tr0)[5]? = some c ∧ c.tag = "cat_proc" ∧
      c.stdout = .toFh opts0.u) ∧
    (∃ d, (spawnsOf tr0)[7]? = some d ∧ d.tag = "deinterleave_proc" ∧
      d.argv[6]? = some "-u" ∧ d.argv[7]? = some opts0.u) :=
  c10_unpaired_two_writers env0 opts0 tr0 rfl
